import Mathlib

/-!
Verification of the CrisisEye flood-dashboard orchestration core against its
natural-language specification.

The development is a shallow embedding of the relevant TypeScript sources
(`src/frontend/src/hooks/useFloodData.ts`, `src/frontend/src/App.tsx`,
`src/frontend/src/components/Dashboard/Dashboard.tsx`, the Sidebar components,
`src/frontend/src/types/index.ts`).  JavaScript `number` values are modelled
as exact rationals `ℚ`; `Math.floor`/`Math.ceil` become `Int.floor`/`Int.ceil`.
Asynchronous React code is modelled as explicit state-transition functions:
every resumption of an `async` handler applies its synchronous batch of
`setState` calls as one atomic, observable state (React 18 batches all state
updates that occur before the scheduled re-render), and the network is an
oracle parameter that supplies each request's outcome.
-/

namespace CrisisEye

/-- Outcome of one awaited network request: the promise either fulfils with a
typed payload or rejects with an error message (the `err.message` the catch
blocks read). -/
inductive FetchResult (α : Type) where
  | success (value : α)
  | failure (message : String)
deriving DecidableEq, Repr

/-- `BoundingBox` from `types/index.ts`. -/
structure BoundingBox where
  min_lon : ℚ
  min_lat : ℚ
  max_lon : ℚ
  max_lat : ℚ
deriving DecidableEq, Repr

/-- `FloodPixelStats` from `types/index.ts`. -/
structure FloodPixelStats where
  total_pixels : ℚ
  flooded_pixels : ℚ
  flood_percentage : ℚ
  area_km2 : ℚ
  flooded_area_km2 : ℚ
deriving DecidableEq, Repr

/-- `BuildingInfo` from `types/index.ts`. -/
structure BuildingInfo where
  osm_id : ℤ
  name : Option String
  building_type : String
  lat : ℚ
  lon : ℚ
  is_flooded : Bool
  flood_probability : ℚ
deriving DecidableEq, Repr

/-- Properties of a `FloodFeature` from `types/index.ts`. -/
structure FloodFeatureProperties where
  flood_probability : ℚ
  area_km2 : Option ℚ
  cell_size_deg : Option ℚ
deriving DecidableEq, Repr

/-- `FloodFeature` from `types/index.ts`; the constant discriminants
`type: "Feature"` and `geometry.type: "Polygon"` are left implicit. -/
structure FloodFeature where
  properties : FloodFeatureProperties
  coordinates : List (List (List ℚ))
deriving DecidableEq, Repr

/-- `FloodGeoJSON` from `types/index.ts` (a feature collection). -/
structure FloodGeoJSON where
  features : List FloodFeature
deriving DecidableEq, Repr

/-- The `status` discriminant shared by `AnalysisResponse` and
`PredictionResponse` in `types/index.ts`. -/
inductive ResponseStatus where
  | pending
  | processing
  | completed
  | failed
deriving DecidableEq, Repr

/-- `AnalysisResponse` from `types/index.ts`. -/
structure AnalysisResponse where
  status : ResponseStatus
  message : String
  stats : Option FloodPixelStats
  flood_geojson : Option FloodGeoJSON
  buildings_affected : ℚ
  processing_time_seconds : ℚ
deriving DecidableEq, Repr

/-- `BuildingsResponse` from `types/index.ts`. -/
structure BuildingsResponse where
  total_count : ℤ
  flooded_count : ℤ
  buildings : List BuildingInfo
deriving DecidableEq, Repr

/-- `PredictionRequest` from `types/index.ts`. -/
structure PredictionRequest where
  bbox : BoundingBox
  prediction_hours : ℚ
deriving DecidableEq, Repr

/-- Risk levels of a `PredictionResponse` (`types/index.ts`). -/
inductive RiskLevel where
  | low
  | moderate
  | high
  | critical
  | unknown
deriving DecidableEq, Repr

/-- Risk levels of an `EvacuationPriority` (`types/index.ts`). -/
inductive EvacRiskLevel where
  | critical
  | high
  | medium
  | low
deriving DecidableEq, Repr

/-- `EvacuationPriority` from `types/index.ts`. -/
structure EvacuationPriority where
  osm_id : ℤ
  name : Option String
  building_type : String
  lat : ℚ
  lon : ℚ
  risk_level : EvacRiskLevel
  flood_probability : ℚ
  evacuation_score : ℚ
  estimated_time_to_flood_hours : ℚ
  people_estimate : ℚ
deriving DecidableEq, Repr

/-- `PrecipitationInfo` from `types/index.ts`. -/
structure PrecipitationInfo where
  mean_mm : ℚ
  max_mm : ℚ
  source : String
  hours_analyzed : ℚ
  is_simulated : Bool
deriving DecidableEq, Repr

/-- `RiskFactors` from `types/index.ts`. -/
structure RiskFactors where
  precipitation_contribution : ℚ
  terrain_contribution : ℚ
  time_factor : ℚ
deriving DecidableEq, Repr

/-- `PredictionResponse` from `types/index.ts`. -/
structure PredictionResponse where
  status : ResponseStatus
  message : String
  timestamp : String
  prediction_hours : ℚ
  flood_probability : ℚ
  risk_level : RiskLevel
  confidence : ℚ
  precipitation : Option PrecipitationInfo
  risk_factors : Option RiskFactors
  risk_zones_geojson : Option FloodGeoJSON
  evacuation_priorities : List EvacuationPriority
  processing_time_seconds : ℚ
  next_update_minutes : ℚ
deriving DecidableEq, Repr

/-! ## FinancialLossEstimator (`Dashboard.tsx`, `DAMAGE_COSTS` and
`estimateFinancialLoss`) -/

/-- The per-unit damage cost table `DAMAGE_COSTS` of `Dashboard.tsx`. -/
structure DamageCosts where
  residential : ℚ
  commercial : ℚ
  industrial : ℚ
  infrastructure : ℚ
  agricultural : ℚ
deriving DecidableEq, Repr

/-- `DAMAGE_COSTS` constant of `Dashboard.tsx` (PLN). -/
def DAMAGE_COSTS : DamageCosts :=
  { residential := 150000
    commercial := 500000
    industrial := 1200000
    infrastructure := 300000
    agricultural := 50000 }

/-- Return value of `estimateFinancialLoss` in `Dashboard.tsx`. -/
structure LossEstimate where
  totalLoss : ℚ
  buildingDamage : ℚ
  infrastructureDamage : ℚ
  agriculturalLoss : ℚ
deriving DecidableEq, Repr

/-- `estimateFinancialLoss` from `Dashboard.tsx`: 70/20/10 floored building
mix, one infrastructure asset per 2 km² rounded up, 30% of the flooded area
counted as crops.  The function performs no input validation. -/
def estimateFinancialLoss (buildingsAffected floodedAreaKm2 : ℚ) : LossEstimate :=
  let residential : ℤ := ⌊buildingsAffected * (0.7 : ℚ)⌋
  let commercial : ℤ := ⌊buildingsAffected * (0.2 : ℚ)⌋
  let industrial : ℤ := ⌊buildingsAffected * (0.1 : ℚ)⌋
  let buildingDamage : ℚ :=
    (residential : ℚ) * DAMAGE_COSTS.residential +
    (commercial : ℚ) * DAMAGE_COSTS.commercial +
    (industrial : ℚ) * DAMAGE_COSTS.industrial
  let infrastructureDamage : ℚ :=
    (⌈floodedAreaKm2 / 2⌉ : ℚ) * DAMAGE_COSTS.infrastructure
  let agriculturalLoss : ℚ :=
    (floodedAreaKm2 * (0.3 : ℚ)) * DAMAGE_COSTS.agricultural
  { totalLoss := buildingDamage + infrastructureDamage + agriculturalLoss
    buildingDamage := buildingDamage
    infrastructureDamage := infrastructureDamage
    agriculturalLoss := agriculturalLoss }

/-! ## RequestOrchestrator state (`useFloodData.ts` and `App.tsx`)

`useFloodData` owns one `FloodDataState` record; `App` additionally owns the
prediction state.  Each observable state below is the state after one atomic
batch of `setState` calls. -/

/-- `FloodDataState` from `useFloodData.ts`. -/
structure FloodDataState where
  result : Option AnalysisResponse
  buildings : List BuildingInfo
  isLoading : Bool
  error : Option String
deriving DecidableEq, Repr

/-- The `useState` initializer of `useFloodData`. -/
def initialFloodDataState : FloodDataState :=
  { result := none, buildings := [], isLoading := false, error := none }

/-- The observable states of one `runAnalysis(request)` call
(`useFloodData.ts`): first the pending state set on entry, then the state set
when the awaited chain resolves.  `primary` is the network's outcome for
`analyzeFlood(request)` and `buildingsFetch` the outcome `getBuildings(bbox)`
would return (the latter is only consulted when the primary succeeds — both
awaits sit in one `try` block, so a failure of either lands in the same
`catch`). -/
def runAnalysisStates (s : FloodDataState)
    (primary : FetchResult AnalysisResponse)
    (buildingsFetch : FetchResult BuildingsResponse) : List FloodDataState :=
  let pending := { s with isLoading := true, error := none }
  match primary with
  | .failure m =>
      [pending, { pending with isLoading := false, error := some m }]
  | .success r =>
      match buildingsFetch with
      | .failure m =>
          [pending, { pending with isLoading := false, error := some m }]
      | .success buildingsData =>
          [pending,
           { result := some r, buildings := buildingsData.buildings,
             isLoading := false, error := none }]

/-- The state in which a `runAnalysis` call leaves the hook once it resolves. -/
def runAnalysisFinal (s : FloodDataState)
    (primary : FetchResult AnalysisResponse)
    (buildingsFetch : FetchResult BuildingsResponse) : FloodDataState :=
  (runAnalysisStates s primary buildingsFetch).getLastD s

/-- The observable states of one `loadDemoData()` call (`useFloodData.ts`):
pending on entry, then the resolution state (success publishes the demo
result with an empty building list; failure keeps the previous result and
records the message). -/
def loadDemoStates (s : FloodDataState)
    (demo : FetchResult AnalysisResponse) : List FloodDataState :=
  let pending := { s with isLoading := true, error := none }
  match demo with
  | .failure m =>
      [pending, { pending with isLoading := false, error := some m }]
  | .success r =>
      [pending,
       { result := some r, buildings := [], isLoading := false, error := none }]

/-- The state in which a `loadDemoData` call leaves the hook once it resolves. -/
def loadDemoFinal (s : FloodDataState)
    (demo : FetchResult AnalysisResponse) : FloodDataState :=
  (loadDemoStates s demo).getLastD s

/-- One scheduler event of a `loadDemoData` invocation, used to interleave
several concurrently in-flight calls: `start` is the synchronous prefix that
sets the pending state, `resolve` is the continuation that runs when that
call's response arrives. -/
inductive DemoEvent where
  | start
  | resolve (outcome : FetchResult AnalysisResponse)
deriving DecidableEq, Repr

/-- Effect of one `DemoEvent` on the hook state, exactly the `setState` calls
of `loadDemoData` (`useFloodData.ts`): the resolution applies its payload
unconditionally — nothing compares it against a generation counter. -/
def stepDemo (s : FloodDataState) (e : DemoEvent) : FloodDataState :=
  match e with
  | .start => { s with isLoading := true, error := none }
  | .resolve (.success r) =>
      { result := some r, buildings := [], isLoading := false, error := none }
  | .resolve (.failure m) =>
      { s with isLoading := false, error := some m }

/-- The state reached by running a sequence of interleaved demo events. -/
def runDemoEvents (s : FloodDataState) (events : List DemoEvent) : FloodDataState :=
  List.foldl stepDemo s events

/-- The `App` component's state (`App.tsx`): the hook state plus the
prediction mode state. -/
structure AppState where
  flood : FloodDataState
  prediction : Option PredictionResponse
  isPredicting : Bool
  predictionError : Option String
deriving DecidableEq, Repr

/-- The initial `App` state. -/
def initialAppState : AppState :=
  { flood := initialFloodDataState, prediction := none,
    isPredicting := false, predictionError := none }

/-- `handlePredict(request)` always posts `request` to `/api/predict`
unchanged: no field of the request — in particular `prediction_hours` — is
inspected or validated before the network call (`App.tsx`). -/
def handlePredictIssued (request : PredictionRequest) : Option PredictionRequest :=
  some request

/-- The observable states of one `handlePredict(request)` call (`App.tsx`):
the pending state (`setIsPredicting(true)`, `setPredictionError(null)`), then
the resolution state — on success `setPrediction(result)` and
`clearResults()` followed by the `finally` block, on failure the error
message, all batched into one update.  The request itself is not consulted:
there is no horizon validation. -/
def handlePredictStates (s : AppState) (_request : PredictionRequest)
    (response : FetchResult PredictionResponse) : List AppState :=
  let pending := { s with isPredicting := true, predictionError := none }
  match response with
  | .success p =>
      [pending,
       { pending with prediction := some p, flood := initialFloodDataState,
                      isPredicting := false }]
  | .failure m =>
      [pending,
       { pending with predictionError := some m, isPredicting := false }]

/-- The observable states of one `handleLoadPredictionDemo()` call
(`App.tsx`): pending (`setIsPredicting(true)` — the prediction error is not
reset here), then the resolution state (success sets the prediction, clears
the analysis results and sets the demo bounding box — the box is not part of
this state record; failure only ends the pending phase). -/
def handleLoadPredictionDemoStates (s : AppState)
    (response : FetchResult PredictionResponse) : List AppState :=
  let pending := { s with isPredicting := true }
  match response with
  | .success p =>
      [pending,
       { pending with prediction := some p, flood := initialFloodDataState,
                      isPredicting := false }]
  | .failure _ =>
      [pending, { pending with isPredicting := false }]

/-- The observable states of one `handleAnalyze(request)` call (`App.tsx`
composed with `runAnalysis` of `useFloodData.ts`): the pending state, then
the resolution state; on success the hook publishes the outcome and
`handleAnalyze`'s continuation runs `setPrediction(null)` before the next
re-render, on failure the catch block leaves the prediction untouched. -/
def handleAnalyzeStates (s : AppState)
    (primary : FetchResult AnalysisResponse)
    (buildingsFetch : FetchResult BuildingsResponse) : List AppState :=
  let pending := { s with flood := { s.flood with isLoading := true, error := none } }
  match primary with
  | .failure m =>
      [pending,
       { pending with
           flood := { pending.flood with isLoading := false, error := some m } }]
  | .success r =>
      match buildingsFetch with
      | .failure m =>
          [pending,
           { pending with
               flood := { pending.flood with isLoading := false, error := some m } }]
      | .success buildingsData =>
          [pending,
           { pending with
               flood := { result := some r,
                          buildings := buildingsData.buildings,
                          isLoading := false, error := none },
               prediction := none }]

/-! ## ReportGenerator and the Dashboard severity views (`Dashboard.tsx`)

String renderings of JavaScript numbers.  `number` is modelled as `ℚ`; the
helpers below model the ECMAScript operations the report template uses. -/

/-- Pad a digit string on the left with zeros to width `w`. -/
def padZeros (w : ℕ) (s : String) : String :=
  String.mk (List.replicate (w - s.length) '0') ++ s

/-- Rendering of the scaled integer `n` (the number times `10^f`) with a
decimal point before the last `f` digits. -/
def jsToFixedInt (f : ℕ) (n : ℤ) : String :=
  let sign := if n < 0 then "-" else ""
  let a := n.natAbs
  if f = 0 then sign ++ toString a
  else sign ++ toString (a / 10 ^ f) ++ "." ++ padZeros f (toString (a % 10 ^ f))

/-- `Number.prototype.toFixed(f)`: render `q` with exactly `f` fractional
digits, rounding to the nearest multiple of `10^-f` (on a tie ECMAScript
picks the larger scaled integer, which `⌊· + 1/2⌋` does). -/
def jsToFixed (f : ℕ) (q : ℚ) : String :=
  jsToFixedInt f ⌊q * (10 : ℚ) ^ f + 1 / 2⌋

/-- Group a digit string into blocks of three from the right, separated by
`sep`. -/
def groupDigits (sep : String) (s : String) : String :=
  let digits := s.toList.reverse
  let rec go : List Char → List Char → List String → List String
    | [], acc, out => acc.reverse.asString :: out
    | c :: cs, acc, out =>
        if acc.length = 3 then go cs [c] (acc.reverse.asString :: out)
        else go cs (c :: acc) out
  String.intercalate sep (go digits [] [])

/-- `Number.prototype.toLocaleString()` on an integral value: the integer's
digits with a host-locale grouping separator (modelled here with the default
`en-US` comma; the separator character is host-dependent, which no claim
depends on).  The report only applies it to the integral pixel counts, so the
non-integral case falls back to the plain rendering. -/
def jsToLocaleString (q : ℚ) : String :=
  if q.den = 1 then
    (if q.num < 0 then "-" else "") ++ groupDigits (",") (toString q.num.natAbs)
  else jsToFixed 3 q

/-- Template interpolation `${x}` of a plain number: integers print without a
decimal point; the non-integral fallback is approximate (no claim exercises
it). -/
def jsNumberToString (q : ℚ) : String :=
  if q.den = 1 then toString q.num else jsToFixed 3 q

/-- The recommendation line of the report template (`Dashboard.tsx`,
`generateReport`): a ternary chain on `stats.flood_percentage` with bands
`>30`, `>15`, otherwise.  No evacuation count is interpolated into any of the
three texts. -/
def reportRecommendation (flood_percentage : ℚ) : String :=
  if flood_percentage > 30 then
    "⚠️  WYSOKI POZIOM ZAGROŻENIA - wymagana natychmiastowa ewakuacja"
  else if flood_percentage > 15 then
    "⚠️  ŚREDNI POZIOM ZAGROŻENIA - monitorować sytuację"
  else
    "✓  NISKI POZIOM ZAGROŻENIA - standardowe procedury"

/-- Character-list implementation of `String.prototype.trim()`: drop
whitespace from both ends (the template's leading newline and trailing
spaces). -/
def trimChars (l : List Char) : List Char :=
  ((l.dropWhile Char.isWhitespace).reverse.dropWhile Char.isWhitespace).reverse

/-- `String.prototype.trim()` over the underlying character list. -/
def jsTrim (s : String) : String :=
  String.mk (trimChars s.data)

/-- Join the lines of the report template with the newlines the template
literal contains. -/
def joinLines (lines : List String) : String :=
  String.mk (List.intercalate ['\n'] (lines.map String.data))

/-- The 62-character horizontal rule of the report's box frame. -/
def boxRule : String :=
  String.mk (List.replicate 62 '\u2550')

/-- Top, interior and bottom frame lines of the report template. -/
def boxTop : String := "\u2554" ++ boxRule ++ "\u2557"

/-- Interior separator line of the report template. -/
def boxSep : String := "\u2560" ++ boxRule ++ "\u2563"

/-- Bottom frame line of the report template. -/
def boxBottom : String := "\u255a" ++ boxRule ++ "\u255d"

/-- The light horizontal rule above the report's total line. -/
def dashRule : String :=
  "\u2551 " ++ String.mk (List.replicate 61 '\u2500')

/-- `generateReport(result)` from `Dashboard.tsx`.  The source reads the
clock itself — `new Date().toLocaleDateString('pl-PL')` and
`new Date().toLocaleTimeString('pl-PL')`; those two ambient reads are
modelled as the explicit arguments `date` and `time`.  Everything else is the
template literal of the source, followed by `.trim()`. -/
def generateReport (result : AnalysisResponse) (date time : String) : String :=
  match result.stats with
  | none => ""
  | some stats =>
    let buildings_affected := result.buildings_affected
    let losses := estimateFinancialLoss buildings_affected stats.flooded_area_km2
    jsTrim (joinLines [
      "",
      boxTop,
      "║              RAPORT ANALIZY POWODZI - CrisisEye              ║",
      boxSep,
      "║ Data wygenerowania: " ++ date ++ " " ++ time,
      "║ Czas przetwarzania: " ++ jsToFixed 2 result.processing_time_seconds ++ " sekund",
      boxSep,
      "║                    ZASIĘG POWODZI                            ║",
      boxSep,
      "║ Analizowany obszar:     " ++ jsToFixed 2 stats.area_km2 ++ " km²",
      "║ Obszar zalany:          " ++ jsToFixed 2 stats.flooded_area_km2 ++ " km²",
      "║ Procent zalania:        " ++ jsToFixed 1 stats.flood_percentage ++ "%",
      "║ Piksele zalane:         " ++ jsToLocaleString stats.flooded_pixels ++ " / " ++
        jsToLocaleString stats.total_pixels,
      boxSep,
      "║                    STRATY MATERIALNE                         ║",
      boxSep,
      "║ Budynki dotknięte:      " ++ jsNumberToString buildings_affected,
      "║   - Mieszkalne (~70%):  " ++ toString ⌊buildings_affected * (0.7 : ℚ)⌋,
      "║   - Komercyjne (~20%):  " ++ toString ⌊buildings_affected * (0.2 : ℚ)⌋,
      "║   - Przemysłowe (~10%): " ++ toString ⌊buildings_affected * (0.1 : ℚ)⌋,
      boxSep,
      "║                 SZACOWANE STRATY FINANSOWE                   ║",
      boxSep,
      "║ Szkody budynków:        " ++ jsToFixed 2 (losses.buildingDamage / 1000000) ++ " mln PLN",
      "║ Szkody infrastruktury:  " ++ jsToFixed 2 (losses.infrastructureDamage / 1000000) ++ " mln PLN",
      "║ Straty rolne:           " ++ jsToFixed 2 (losses.agriculturalLoss / 1000000) ++ " mln PLN",
      dashRule,
      "║ RAZEM:                  " ++ jsToFixed 2 (losses.totalLoss / 1000000) ++ " mln PLN",
      boxSep,
      "║                      REKOMENDACJE                            ║",
      boxSep,
      "║ " ++ reportRecommendation stats.flood_percentage,
      "║ ",
      "║ Priorytetowe działania:",
      "║ 1. Ewakuacja " ++ toString ⌈buildings_affected * (0.3 : ℚ)⌉ ++
        " budynków w strefie wysokiego ryzyka",
      "║ 2. Zabezpieczenie " ++ toString ⌈stats.flooded_area_km2 * (0.5 : ℚ)⌉ ++ " km dróg",
      "║ 3. Uruchomienie pomp o wydajności min. " ++
        toString ⌈stats.flooded_area_km2 * 1000⌉ ++ " m³/h",
      boxBottom,
      "",
      "Wygenerowano przez CrisisEye 🛰️",
      "Hackathon \"AI między orbitami\" 2026",
      "    "])

/-- The evacuation count interpolated into the Dashboard's high-severity
alert (`Dashboard.tsx`): `Math.ceil(buildings_affected * 0.5)`. -/
def highBandEvacCount (buildings_affected : ℚ) : ℤ :=
  ⌈buildings_affected * (0.5 : ℚ)⌉

/-- The evacuation count interpolated into the Dashboard's medium-severity
alert (`Dashboard.tsx`): `Math.ceil(buildings_affected * 0.2)`. -/
def mediumBandEvacCount (buildings_affected : ℚ) : ℤ :=
  ⌈buildings_affected * (0.2 : ℚ)⌉

/-- The alert paragraph at the bottom of the `Dashboard` component
(`Dashboard.tsx`): the same `>30`/`>15` threshold bands, the high band
suggesting evacuation of `Math.ceil(buildings_affected * 0.5)` buildings, the
medium band `Math.ceil(buildings_affected * 0.2)`, the low band none. -/
def dashboardAlertMessage (flood_percentage buildings_affected : ℚ) : String :=
  if flood_percentage > 30 then
    "Wymagana natychmiastowa ewakuacja " ++ toString (highBandEvacCount buildings_affected) ++
      " budynków. Uruchomić procedury kryzysowe."
  else if flood_percentage > 15 then
    "Monitorować sytuację. Przygotować ewakuację " ++
      toString (mediumBandEvacCount buildings_affected) ++ " budynków w strefie ryzyka."
  else
    "Sytuacja pod kontrolą. Kontynuować standardowe procedury monitoringu."

/-! ## BoundingBoxSelector (`RectangleSelector` in `App.tsx`) -/

/-- A Leaflet `LatLng` pair (map coordinates). -/
structure LatLng where
  lat : ℚ
  lng : ℚ
deriving DecidableEq, Repr

/-- A Leaflet `LatLngBounds` rectangle. -/
structure LatLngBounds where
  west : ℚ
  south : ℚ
  east : ℚ
  north : ℚ
deriving DecidableEq, Repr

/-- `L.latLngBounds(a, b)` for two corners, per the Leaflet library's
semantics (external dependency of `App.tsx`): the bounds extend over both
points, so each side is the min/max of the corresponding coordinates. -/
def latLngBounds (a b : LatLng) : LatLngBounds :=
  { west := min a.lng b.lng
    south := min a.lat b.lat
    east := max a.lng b.lng
    north := max a.lat b.lat }

/-- The `BoundingBox` the `mouseup` handler of `RectangleSelector`
(`App.tsx`) emits via `onSelect` from the recorded anchor `startPoint` and the
release position: `getWest`/`getSouth`/`getEast`/`getNorth` of
`L.latLngBounds(startPoint, e.latlng)`. -/
def rectangleSelectorCommit (startPoint release : LatLng) : BoundingBox :=
  let finalBounds := latLngBounds startPoint release
  { min_lon := finalBounds.west
    min_lat := finalBounds.south
    max_lon := finalBounds.east
    max_lat := finalBounds.north }

/-! ## Concrete fixtures used by counterexamples and witnesses -/

/-- A committed selection (integer degrees keep every later comparison
kernel-computable). -/
def exampleBbox : BoundingBox :=
  { min_lon := 17, min_lat := 51, max_lon := 18, max_lat := 52 }

/-- A first completed analysis payload ("operation A"). -/
def exampleResponseA : AnalysisResponse :=
  { status := .completed, message := "A", stats := none, flood_geojson := none,
    buildings_affected := 1, processing_time_seconds := 1 }

/-- A second, distinct completed analysis payload ("operation B"). -/
def exampleResponseB : AnalysisResponse :=
  { status := .completed, message := "B", stats := none, flood_geojson := none,
    buildings_affected := 2, processing_time_seconds := 2 }

/-- Flood statistics with round values (25% flooded, 4 km² under water). -/
def exampleStats : FloodPixelStats :=
  { total_pixels := 100, flooded_pixels := 25, flood_percentage := 25,
    area_km2 := 100, flooded_area_km2 := 4 }

/-- A completed analysis outcome carrying `exampleStats` and 10 affected
buildings. -/
def exampleAnalysis : AnalysisResponse :=
  { status := .completed, message := "ok", stats := some exampleStats,
    flood_geojson := none, buildings_affected := 10,
    processing_time_seconds := 2 }

/-- A completed prediction payload. -/
def examplePrediction : PredictionResponse :=
  { status := .completed, message := "ok", timestamp := "t0",
    prediction_hours := 6, flood_probability := 1, risk_level := .high,
    confidence := 1, precipitation := none, risk_factors := none,
    risk_zones_geojson := none, evacuation_priorities := [],
    processing_time_seconds := 1, next_update_minutes := 15 }

/-- An `App` state in which an analysis outcome is live and no prediction
is. -/
def appWithAnalysis : AppState :=
  { flood := { result := some exampleResponseA, buildings := [],
               isLoading := false, error := none },
    prediction := none, isPredicting := false, predictionError := none }

/-! ## C1 — stale-response suppression -/

/-- C1 (counterexample): the claimed generation-counter suppression does not
exist.  Concretely: demo operation A starts, operation B starts before A
resolves, B resolves with payload `exampleResponseB`, and then A's response
arrives with payload `exampleResponseA`; the claim says the live state then
still equals B's state, but applying A's late response changes the state. -/
theorem stale_response_not_suppressed :
    runDemoEvents initialFloodDataState
      [.start, .start, .resolve (.success exampleResponseB),
       .resolve (.success exampleResponseA)] ≠
    runDemoEvents initialFloodDataState
      [.start, .start, .resolve (.success exampleResponseB)] := by
  decide

/-- C1 (amended): no generation counter is maintained anywhere; a response is
applied to state unconditionally when it resolves.  In the stale scenario —
A issued, B issued before A resolves, B resolved, then A's success response
arrives — A's payload is applied and overwrites B's published result
(last writer wins). -/
theorem stale_response_overwrites (s : FloodDataState)
    (rA rB : AnalysisResponse) :
    runDemoEvents s
      [.start, .start, .resolve (.success rB), .resolve (.success rA)] =
    { result := some rA, buildings := [], isLoading := false, error := none } :=
  rfl

/-! ## C2 — mutual exclusivity of operation modes -/

/-- C2 (counterexample): the prior outcome is not cleared before the new
operation is requested.  Starting from a state with a live analysis outcome,
at the observable instant right after `handlePredict` issues its request the
analysis result is still live. -/
theorem prior_outcome_live_while_pending :
    ((handlePredictStates appWithAnalysis
        { bbox := exampleBbox, prediction_hours := 6 }
        (.success examplePrediction)).headD initialAppState).flood.result ≠
      none := by
  decide

/-- C2 (amended): the prior outcome is cleared only when the new operation's
response resolves, not before it is requested: the pending state keeps the
previous flood state (and previous prediction) untouched, while the
resolution step of either mode applies the new outcome and clears the other
mode's outcome in the same atomic update, so each resolution re-establishes
that at most one outcome is live. -/
theorem outcome_cleared_at_resolution (s : AppState)
    (req : PredictionRequest) (resp : FetchResult PredictionResponse)
    (pp : PredictionResponse) (rr : AnalysisResponse)
    (bd : BuildingsResponse) :
    (handlePredictStates s req resp).head? =
      some { s with isPredicting := true, predictionError := none } ∧
    (handlePredictStates s req (.success pp)).getLastD s =
      { s with prediction := some pp, flood := initialFloodDataState,
               isPredicting := false, predictionError := none } ∧
    (handleAnalyzeStates s (.success rr) (.success bd)).getLastD s =
      { s with flood := { result := some rr, buildings := bd.buildings,
                          isLoading := false, error := none },
               prediction := none } := by
  refine ⟨?_, rfl, rfl⟩
  cases resp <;> rfl

/-! ## C3 — partial-failure tolerance in runAnalysis -/

/-- C3 (counterexample): when the primary analysis request succeeds and the
secondary buildings request fails, the operation does not end in the claimed
success state — the primary outcome is not published and an error is
surfaced. -/
theorem buildings_failure_not_tolerated :
    ¬ ((runAnalysisFinal initialFloodDataState (.success exampleResponseA)
          (.failure "buildings request failed")).result = some exampleResponseA ∧
       (runAnalysisFinal initialFloodDataState (.success exampleResponseA)
          (.failure "buildings request failed")).error = none) := by
  decide

/-- C3 (amended): both awaits of `runAnalysis` sit in one `try` block, so a
failing secondary buildings request fails the whole operation exactly like a
primary failure: the error message is surfaced, loading ends, and the
primary payload is never published (the previous result and building list
are left as they were). -/
theorem buildings_failure_fails_operation (s : FloodDataState)
    (r : AnalysisResponse) (m : String) :
    runAnalysisFinal s (.success r) (.failure m) =
      { s with isLoading := false, error := some m } :=
  rfl

/-! ## C4, C5 — the financial loss estimator -/

/-- C4: reference values of the estimator.  `estimate(0,0)` is all zeros and
`estimate(10, 4)` with the unit-cost table (150000, 500000, 1200000, 300000,
50000) yields building damage 3,250,000 = 7·150000 + 2·500000 + 1·1200000
(floored 70/20/10 partitions, no remainder redistribution), infrastructure
damage 600,000 = ⌈4/2⌉·300000, agricultural loss 60,000 = 4·0.3·50000, and
total 3,910,000. -/
theorem loss_estimator_reference_values :
    estimateFinancialLoss 0 0 =
      { totalLoss := 0, buildingDamage := 0, infrastructureDamage := 0,
        agriculturalLoss := 0 } ∧
    estimateFinancialLoss 10 4 =
      { totalLoss := 3910000, buildingDamage := 3250000,
        infrastructureDamage := 600000, agriculturalLoss := 60000 } := by
  constructor <;>
    · simp only [estimateFinancialLoss, DAMAGE_COSTS, LossEstimate.mk.injEq]
      norm_num

/-- C5 (counterexample): called with a negative `buildingsAffected`, the
estimator does not fail with a `ValidationError` — it has no validation at
all and returns a numeric (here negative, hence also unclamped) estimate. -/
theorem negative_input_returns_estimate :
    estimateFinancialLoss (-1) 0 =
      { totalLoss := -1850000, buildingDamage := -1850000,
        infrastructureDamage := 0, agriculturalLoss := 0 } := by
  simp only [estimateFinancialLoss, DAMAGE_COSTS, LossEstimate.mk.injEq]
  norm_num

/-- C5 (amended): negative inputs are neither rejected nor clamped: the
same floor/ceiling formulas are applied to them, and any negative building
count (with no flooded area) yields a strictly negative total. -/
theorem negative_input_no_validation (b f : ℚ) (hb : b < 0) (hf : f = 0) :
    (estimateFinancialLoss b f).totalLoss < 0 := by
  subst hf
  simp only [estimateFinancialLoss, DAMAGE_COSTS]
  have h7 : ⌊b * (0.7 : ℚ)⌋ ≤ -1 := by
    have h := Int.floor_lt.mpr (show b * (0.7 : ℚ) < ((0 : ℤ) : ℚ) by push_cast; nlinarith)
    omega
  have h2 : ⌊b * (0.2 : ℚ)⌋ ≤ -1 := by
    have h := Int.floor_lt.mpr (show b * (0.2 : ℚ) < ((0 : ℤ) : ℚ) by push_cast; nlinarith)
    omega
  have h1 : ⌊b * (0.1 : ℚ)⌋ ≤ -1 := by
    have h := Int.floor_lt.mpr (show b * (0.1 : ℚ) < ((0 : ℤ) : ℚ) by push_cast; nlinarith)
    omega
  have q7 : ((⌊b * (0.7 : ℚ)⌋ : ℤ) : ℚ) ≤ -1 := by exact_mod_cast h7
  have q2 : ((⌊b * (0.2 : ℚ)⌋ : ℤ) : ℚ) ≤ -1 := by exact_mod_cast h2
  have q1 : ((⌊b * (0.1 : ℚ)⌋ : ℤ) : ℚ) ≤ -1 := by exact_mod_cast h1
  have hc : (⌈(0 : ℚ) / 2⌉ : ℤ) = 0 := by norm_num
  rw [hc]
  push_cast
  nlinarith

/-- C5 (witness for the amended theorem): at the concrete negative input
`(-1, 0)` the hypotheses hold and the total is negative. -/
theorem negative_input_no_validation_witness :
    (estimateFinancialLoss (-1) 0).totalLoss < 0 :=
  negative_input_no_validation (-1) 0 (by norm_num) rfl

/-! ## C6 — report determinism -/

set_option maxRecDepth 40000 in
/-- C6 (counterexample): `generateReport` has no injected timestamp — it
reads the ambient clock itself (`new Date()` twice, modelled by the explicit
clock arguments).  Two invocations on one byte-identical `AnalysisOutcome`
(hence identical derived `LossEstimate`) but different ambient clock readings
produce different text, so the output is not determined by the inputs the
claim lists. -/
theorem report_depends_on_ambient_clock :
    generateReport exampleAnalysis ("11.10.2026") ("12:00:00") ≠
    generateReport exampleAnalysis ("12.10.2026") ("12:00:00") := by
  simp only [generateReport, exampleAnalysis, exampleStats, estimateFinancialLoss,
    DAMAGE_COSTS, jsToFixed, jsToLocaleString, jsNumberToString, reportRecommendation]
  norm_num
  decide

/-- C6 (amended): the generator takes no timestamp parameter and reads the
global clock at generation time; with the two ambient clock readings made
explicit it is a pure function, so two invocations with byte-identical
result and identical clock readings produce byte-identical text and the
inputs are not mutated. -/
theorem report_deterministic_given_clock (r₁ r₂ : AnalysisResponse)
    (d₁ d₂ t₁ t₂ : String) (hr : r₁ = r₂) (hd : d₁ = d₂) (ht : t₁ = t₂) :
    generateReport r₁ d₁ t₁ = generateReport r₂ d₂ t₂ := by
  subst hr hd ht
  rfl

/-- C6 (witness for the amended theorem): the determinism theorem applied at
a concrete result and clock reading. -/
theorem report_deterministic_given_clock_witness :
    generateReport exampleAnalysis ("11.10.2026") ("12:00:00") =
    generateReport exampleAnalysis ("11.10.2026") ("12:00:00") :=
  report_deterministic_given_clock exampleAnalysis exampleAnalysis
    ("11.10.2026") ("11.10.2026") ("12:00:00") ("12:00:00") rfl rfl rfl

/-! ## C7 — recommendation threshold bands and evacuation counts -/

/-- C7 (counterexample): the evacuation-count suggestions are ceilings, not
exact fractions: at 3 affected buildings the high band suggests
`⌈3·0.5⌉ = 2 ≠ 1.5 = 50%·3` and the medium band `⌈3·0.2⌉ = 1 ≠ 0.6 = 20%·3`,
so the counts do not equal 50% resp. 20% of `buildingsAffected`. -/
theorem evac_count_not_exact_fraction :
    ((highBandEvacCount 3 : ℚ) ≠ (0.5 : ℚ) * 3) ∧
    ((mediumBandEvacCount 3 : ℚ) ≠ (0.2 : ℚ) * 3) := by
  constructor
  · have h : ⌈(3 : ℚ) * (0.5 : ℚ)⌉ = 2 := by
      (rw [Int.ceil_eq_iff]; norm_num)
    simp only [highBandEvacCount, h]
    norm_num
  · have h : ⌈(3 : ℚ) * (0.2 : ℚ)⌉ = 1 := by
      (rw [Int.ceil_eq_iff]; norm_num)
    simp only [mediumBandEvacCount, h]
    norm_num

/-- C7 (amended): the recommendation texts are selected by the threshold
bands `>30%` (high), `>15%` (medium), else low — in the report's
recommendation line and in the Dashboard's alert alike — and the alert's
evacuation-count suggestion is the ceiling of 50% of `buildingsAffected` in
the high band, the ceiling of 20% in the medium band, and absent in the low
band (the report's own recommendation line carries no count). -/
theorem recommendation_bands (fp b : ℚ) :
    (highBandEvacCount b = ⌈b / 2⌉) ∧
    (mediumBandEvacCount b = ⌈b / 5⌉) ∧
    (30 < fp →
      dashboardAlertMessage fp b =
        "Wymagana natychmiastowa ewakuacja " ++ toString (highBandEvacCount b) ++
          " budynków. Uruchomić procedury kryzysowe." ∧
      reportRecommendation fp =
        "⚠️  WYSOKI POZIOM ZAGROŻENIA - wymagana natychmiastowa ewakuacja") ∧
    (15 < fp → fp ≤ 30 →
      dashboardAlertMessage fp b =
        "Monitorować sytuację. Przygotować ewakuację " ++
          toString (mediumBandEvacCount b) ++ " budynków w strefie ryzyka." ∧
      reportRecommendation fp =
        "⚠️  ŚREDNI POZIOM ZAGROŻENIA - monitorować sytuację") ∧
    (fp ≤ 15 →
      dashboardAlertMessage fp b =
        "Sytuacja pod kontrolą. Kontynuować standardowe procedury monitoringu." ∧
      reportRecommendation fp =
        "✓  NISKI POZIOM ZAGROŻENIA - standardowe procedury") := by
  refine ⟨?_, ?_, fun h => ?_, fun h1 h2 => ?_, fun h => ?_⟩
  · simp only [highBandEvacCount]
    norm_num [mul_one_div]
  · simp only [mediumBandEvacCount]
    norm_num [mul_one_div]
  · constructor <;>
      simp [dashboardAlertMessage, reportRecommendation, h]
  · have hn : ¬ (30 : ℚ) < fp := not_lt.mpr h2
    constructor <;>
      simp [dashboardAlertMessage, reportRecommendation, hn, h1]
  · have hn1 : ¬ (30 : ℚ) < fp := by
      exact not_lt.mpr (le_trans h (by norm_num))
    have hn2 : ¬ (15 : ℚ) < fp := not_lt.mpr h
    constructor <;>
      simp [dashboardAlertMessage, reportRecommendation, hn1, hn2]

/-- C7 (witness for the amended theorem): each band's conclusion obtained
from the theorem at concrete flood percentages 40, 20 and 10 with 3 affected
buildings. -/
theorem recommendation_bands_witness :
    (dashboardAlertMessage 40 3 =
        "Wymagana natychmiastowa ewakuacja " ++ toString (highBandEvacCount 3) ++
          " budynków. Uruchomić procedury kryzysowe." ∧
      reportRecommendation 40 =
        "⚠️  WYSOKI POZIOM ZAGROŻENIA - wymagana natychmiastowa ewakuacja") ∧
    (dashboardAlertMessage 20 3 =
        "Monitorować sytuację. Przygotować ewakuację " ++
          toString (mediumBandEvacCount 3) ++ " budynków w strefie ryzyka." ∧
      reportRecommendation 20 =
        "⚠️  ŚREDNI POZIOM ZAGROŻENIA - monitorować sytuację") ∧
    (dashboardAlertMessage 10 3 =
        "Sytuacja pod kontrolą. Kontynuować standardowe procedury monitoringu." ∧
      reportRecommendation 10 =
        "✓  NISKI POZIOM ZAGROŻENIA - standardowe procedury") :=
  ⟨(recommendation_bands 40 3).2.2.1 (by norm_num),
   (recommendation_bands 20 3).2.2.2.1 (by norm_num) (by norm_num),
   (recommendation_bands 10 3).2.2.2.2 (by norm_num)⟩

/-! ## C8 — horizon validation in runPrediction -/

/-- C8 (counterexample): with `horizonHours = 0` (and likewise 25) the
operation does not fail synchronously — no `ValidationError` exists in the
code — and it does transition to Pending and issue the network request. -/
theorem horizon_not_validated :
    ((handlePredictStates initialAppState
        { bbox := exampleBbox, prediction_hours := 0 }
        (.failure "backend error")).headD initialAppState).isPredicting = true ∧
    handlePredictIssued { bbox := exampleBbox, prediction_hours := 0 } =
      some { bbox := exampleBbox, prediction_hours := 0 } ∧
    ((handlePredictStates initialAppState
        { bbox := exampleBbox, prediction_hours := 25 }
        (.failure "backend error")).headD initialAppState).isPredicting = true := by
  refine ⟨rfl, rfl, rfl⟩

/-- C8 (amended): `handlePredict` performs no horizon validation: for every
request — `horizonHours` 0, 1, 24 and 25 alike — it transitions to Pending
(the first observable state has `isPredicting = true`) and posts the request
unchanged; the only range restriction on the horizon is the UI slider's
`min=1`/`max=24` bounds. -/
theorem predict_always_reaches_pending (s : AppState)
    (req : PredictionRequest) (resp : FetchResult PredictionResponse) :
    (handlePredictStates s req resp).head? =
      some { s with isPredicting := true, predictionError := none } ∧
    handlePredictIssued req = some req := by
  refine ⟨?_, rfl⟩
  cases resp <;> rfl

/-! ## C9 — bounding-box commit normalization -/

/-- C9: bounding-box commit is order-independent and normalized: for all
corner pairs, committing from anchor `a` and release `b` equals committing
from anchor `b` and release `a`, the committed box satisfies
`min_lon ≤ max_lon` and `min_lat ≤ max_lat`, and each side is the min/max of
the two corners' coordinates. -/
theorem bbox_commit_order_independent (a b : LatLng) :
    rectangleSelectorCommit a b = rectangleSelectorCommit b a ∧
    (rectangleSelectorCommit a b).min_lon ≤ (rectangleSelectorCommit a b).max_lon ∧
    (rectangleSelectorCommit a b).min_lat ≤ (rectangleSelectorCommit a b).max_lat ∧
    rectangleSelectorCommit a b =
      { min_lon := min a.lng b.lng, min_lat := min a.lat b.lat,
        max_lon := max a.lng b.lng, max_lat := max a.lat b.lat } := by
  refine ⟨?_, ?_, ?_, rfl⟩
  · simp [rectangleSelectorCommit, latLngBounds, BoundingBox.mk.injEq,
      min_comm, max_comm]
  · exact min_le_max
  · exact min_le_max

/-! ## C10 — failure preserves prior results -/

/-- C10: every failing `runAnalysis` (primary failure, or primary success
followed by buildings failure) and every failing `loadDemoData` only ends
the loading phase and records the error message: the previously live result
and building list are left unchanged, so a stale outcome can remain live
alongside the error. -/
theorem failure_preserves_prior_results (s : FloodDataState) (m : String)
    (r : AnalysisResponse) (bq : FetchResult BuildingsResponse) :
    runAnalysisFinal s (.failure m) bq =
      { s with isLoading := false, error := some m } ∧
    runAnalysisFinal s (.success r) (.failure m) =
      { s with isLoading := false, error := some m } ∧
    loadDemoFinal s (.failure m) =
      { s with isLoading := false, error := some m } :=
  ⟨rfl, rfl, rfl⟩

end CrisisEye
